import Mathlib

/-!
Verification of the certificate-based authentication subsystem of the joinery
project-management application.

The sources of the repository contain the React frontend (`AuthContext.js`,
`LoginPage.js` with the `AdminPanel`, `App.js`).  The backend components
(KeyAuthority, CertificateIssuer, CertificateStore, CertificateVerifier) are
described by the specification but their implementation files (`auth.py`,
`server.py`) are not part of the available sources; they are modelled here
directly from the specification, and each such definition is marked
`Modelled from the spec`.  The frontend definitions are shallow embeddings of
the JavaScript functions in the available sources.
-/

/-- Claims embedded in a certificate: identity fields, issuance and expiration
timestamps (spec §3, Certificate). -/
structure Claims where
  certificate_id : String
  client_name : String
  client_email : String
  issued_at : Nat
  expires_at : Nat
deriving DecidableEq

/-- Modelled from the spec: the backend claim serialization is not in the
available sources.  A canonical deterministic encoding of the claims with a
fixed field order (spec §4.2, §9), abstracted as a sequence of numbers. -/
def encodeClaims (c : Claims) : List Nat :=
  c.certificate_id.data.map Char.toNat ++ [0] ++
  c.client_name.data.map Char.toNat ++ [0] ++
  c.client_email.data.map Char.toNat ++ [0, c.issued_at, c.expires_at]

namespace KeyAuthority

/-- Modelled from the spec: `sign(payload) -> signature` over the key pair of the authority (spec §4.1); the concrete RSA implementation is not in the available
sources, so the signature is an abstract deterministic function of the key and
the payload. -/
def sign (key : Nat) (payload : List Nat) : Nat :=
  payload.foldl (fun acc n => acc * 131 + n + 1) (key + 1)

/-- Modelled from the spec: `verify(payload, signature) -> bool` (spec §4.1):
a signature verifies exactly when it is the signature of the authority over
the payload. -/
def verify (key : Nat) (payload : List Nat) (signature : Nat) : Bool :=
  signature == sign key payload

end KeyAuthority

/-- Modelled from the spec: the parse outcome of a presented opaque certificate
string (spec §4.4 step 1): either malformed, or claims plus signature. -/
inductive Presented where
  | malformed (raw : String)
  | wellFormed (claims : Claims) (signature : Nat)
deriving DecidableEq

/-- The `AuthFailure` taxonomy (spec §7). -/
inductive AuthFailure where
  | Malformed
  | InvalidSignature
  | Expired
  | Unknown
  | Revoked
deriving DecidableEq

/-- The request-scoped identity produced by successful verification
(spec §3, AuthenticatedIdentity). -/
structure AuthenticatedIdentity where
  client_name : String
  client_email : String
  certificate_id : String
deriving DecidableEq

/-- The durable record stored by CertificateStore, keyed by `certificate_id`
(spec §3, CertificateRecord). -/
structure CertificateRecord where
  certificate_id : String
  client_name : String
  client_email : String
  issued_at : Nat
  expires_at : Nat
  is_active : Bool
  signed_certificate : Presented
deriving DecidableEq

instance recencyDecidable :
    DecidableRel (fun a b : CertificateRecord => b.issued_at ≤ a.issued_at) :=
  fun _ _ => Nat.decLe _ _

instance recencyTotal :
    IsTotal CertificateRecord (fun a b => b.issued_at ≤ a.issued_at) :=
  ⟨fun a b => (Nat.le_total a.issued_at b.issued_at).symm⟩

instance recencyTrans :
    IsTrans CertificateRecord (fun a b => b.issued_at ≤ a.issued_at) :=
  ⟨fun _ _ _ hab hbc => Nat.le_trans hbc hab⟩

namespace CertificateStore

/-- Modelled from the spec: `get(certificate_id) -> record | NotFound`
(spec §4.3), on a store held as a list of records. -/
def get (store : List CertificateRecord) (id : String) : Option CertificateRecord :=
  store.find? (fun r => r.certificate_id == id)

/-- Modelled from the spec: `revoke(certificate_id) -> success | NotFound`
(spec §4.3): flips `is_active` to false on the matching record, succeeds
idempotently when the identifier is present, fails with NotFound otherwise. -/
def revoke (store : List CertificateRecord) (id : String) :
    Option (List CertificateRecord) :=
  if store.any (fun r => r.certificate_id == id) then
    some (store.map (fun r =>
      if r.certificate_id == id then { r with is_active := false } else r))
  else none

/-- Modelled from the spec: `list() -> sequence of records ordered by issuance
time, most recent first` (spec §4.3). -/
def list (store : List CertificateRecord) : List CertificateRecord :=
  List.insertionSort (fun a b => b.issued_at ≤ a.issued_at) store

end CertificateStore

/-- Modelled from the spec: minimal executable stand-in for `valid email
syntax` in the issuance contract (spec §4.2). -/
def validEmailSyntax (e : String) : Bool :=
  e.data.contains '@'

namespace CertificateIssuer

/-- Modelled from the spec: `issue(client_name, client_email, validity_days)`
(spec §4.2): validates the preconditions of the contract (non-empty name, valid
email syntax, validity_days in [1, 3650]), builds the claims with
`expires_at = issued_at + validity_days`, signs the canonical encoding via
KeyAuthority, and persists a record with `is_active = true` atomically with
returning the signed certificate. -/
def issue (key : Nat) (store : List CertificateRecord) (now : Nat)
    (freshId client_name client_email : String) (validity_days : Nat) :
    Option (Presented × List CertificateRecord) :=
  if client_name ≠ "" ∧ validEmailSyntax client_email = true ∧
      1 ≤ validity_days ∧ validity_days ≤ 3650 then
    let claims : Claims :=
      { certificate_id := freshId, client_name := client_name,
        client_email := client_email, issued_at := now,
        expires_at := now + validity_days }
    let signature := KeyAuthority.sign key (encodeClaims claims)
    let record : CertificateRecord :=
      { certificate_id := freshId, client_name := client_name,
        client_email := client_email, issued_at := now,
        expires_at := now + validity_days, is_active := true,
        signed_certificate := Presented.wellFormed claims signature }
    some (Presented.wellFormed claims signature, record :: store)
  else none

end CertificateIssuer

namespace CertificateVerifier

/-- Modelled from the spec: `verify(certificate_string)` (spec §4.4), in
strict order: parse, signature against the key of the authority, expiration
(`current_time <= expires_at` must hold), store lookup (absent -> Unknown,
present inactive -> Revoked), then the authenticated identity. -/
def verify (key : Nat) (store : List CertificateRecord) (now : Nat) :
    Presented → Except AuthFailure AuthenticatedIdentity
  | .malformed _ => .error .Malformed
  | .wellFormed claims signature =>
    if KeyAuthority.verify key (encodeClaims claims) signature = false then
      .error .InvalidSignature
    else if claims.expires_at < now then
      .error .Expired
    else
      match CertificateStore.get store claims.certificate_id with
      | none => .error .Unknown
      | some r =>
        if r.is_active then
          .ok { client_name := claims.client_name,
                client_email := claims.client_email,
                certificate_id := claims.certificate_id }
        else .error .Revoked

end CertificateVerifier

/-- Modelled from the spec: the human-readable reason drawn from the
AuthFailure taxonomy carried by a rejection response (spec §6, Login/verify
request); one distinct message per reason. -/
def failureDetail : AuthFailure → String
  | .Malformed => "Malformed certificate"
  | .InvalidSignature => "Invalid certificate signature"
  | .Expired => "Certificate has expired"
  | .Unknown => "Certificate not recognized"
  | .Revoked => "Certificate has been revoked"

/-! ## Frontend embedding (from the available sources) -/

/-- The identity payload returned by the backend on successful login
(`response.data.user` in `AuthContext.js`). -/
structure UserInfo where
  client_name : String
  client_email : String
deriving DecidableEq

/-- The auth-related client state of `AuthProvider` in `AuthContext.js`:
the `user` and `certificate` React states and the value stored in
localStorage under the key `joinery_certificate`. -/
structure AuthState where
  user : Option UserInfo
  certificate : Option String
  storedCertificate : Option String
deriving DecidableEq

/-- `logout` from `AuthContext.js` lines 109-113: clears user, certificate
and the localStorage entry. -/
def logout (_s : AuthState) : AuthState :=
  { user := none, certificate := none, storedCertificate := none }

/-- `isAuthenticated` from `AuthContext.js` lines 115-117. -/
def isAuthenticated (s : AuthState) : Bool :=
  s.user.isSome && s.certificate.isSome

/-- The response error interceptor from `AuthContext.js` lines 38-46: on an
error response whose status is 401, invoke `logout`; otherwise the state is
untouched.  `status` is `none` when the error carries no response. -/
def responseErrorInterceptor (status : Option Nat) (s : AuthState) : AuthState :=
  if status == some 401 then logout s else s

/-- The configuration of an outbound request as the axios interceptor sees it:
its URL and its headers. -/
structure RequestConfig where
  url : String
  headers : List (String × String)
deriving DecidableEq

/-- JavaScript object-property assignment on the header map: replace the
value when the key is present, append it otherwise. -/
def setHeader (hs : List (String × String)) (k v : String) :
    List (String × String) :=
  if hs.any (fun p => p.1 == k) then
    hs.map (fun p => if p.1 == k then (k, v) else p)
  else hs ++ [(k, v)]

/-- Header lookup by name. -/
def getHeader (hs : List (String × String)) (k : String) : Option String :=
  (hs.find? (fun p => p.1 == k)).map (fun p => p.2)

/-- Containment of `pat` as a contiguous run inside a character list. -/
def charsInclude (pat : List Char) : List Char → Bool
  | [] => pat.isPrefixOf []
  | c :: rest => pat.isPrefixOf (c :: rest) || charsInclude pat rest

/-- JavaScript `String.prototype.includes`: substring containment. -/
def includesSubstr (s pat : String) : Bool :=
  charsInclude pat.data s.data

/-- The bearer-style credential value placed in the Authorization header,
`Bearer` followed by a space and the credential, as built by the template
literals in `AuthContext.js` and `LoginPage.js`. -/
def bearerHeader (credential : String) : String :=
  "Bearer " ++ credential

/-- The axios request interceptor from `AuthContext.js` lines 23-35: when a
certificate is stored under `joinery_certificate` and is truthy (a JavaScript
string is truthy exactly when non-empty) and the URL contains `/api/`, set
the Authorization header to the bearer credential; otherwise pass the
configuration through unchanged. -/
def requestInterceptor (storedCertificate : Option String)
    (config : RequestConfig) : RequestConfig :=
  match storedCertificate with
  | none => config
  | some c =>
    if c ≠ "" ∧ includesSubstr config.url "/api/" = true then
      { config with headers := setHeader config.headers "Authorization" (bearerHeader c) }
    else config

/-- The outcome of the login HTTP call as `AuthContext.js` observes it: a
success response whose body may carry a `user` object, or a thrown HTTP error
whose response body may carry a `detail` string. -/
inductive HttpOutcome where
  | ok (user : Option UserInfo)
  | httpError (status : Nat) (detail : Option String)
deriving DecidableEq

/-- The value returned by `login` in `AuthContext.js`. -/
structure LoginResult where
  success : Bool
  user : Option UserInfo
  error : Option String
deriving DecidableEq

/-- `login` from `AuthContext.js` lines 83-107: on a success response whose
body carries a user object, set the user and certificate states, store the
presented certificate string under `joinery_certificate`, and report success;
on a success response without a user object report `Invalid certificate`;
on a thrown HTTP error report the `detail` of the response when present and
`Authentication failed` otherwise. -/
def login (certificateString : String) (resp : HttpOutcome) (s : AuthState) :
    LoginResult × AuthState :=
  match resp with
  | .ok user =>
    match user with
    | some u =>
      ({ success := true, user := some u, error := none },
       { user := some u, certificate := some certificateString,
         storedCertificate := some certificateString })
    | none =>
      ({ success := false, user := none, error := some "Invalid certificate" }, s)
  | .httpError _ detail =>
    ({ success := false, user := none,
       error := some (detail.getD "Authentication failed") }, s)

/-- The observable effect of the validation step of `handleLogin` in
`LoginPage.js` lines 10-27: the error message it sets and the argument (if
any) with which it invokes `login`. -/
structure HandleLoginStep where
  errorMessage : Option String
  loginCalledWith : Option String
deriving DecidableEq

/-- JavaScript `String.prototype.trim`: remove whitespace from both ends. -/
def jsTrim (s : String) : String :=
  ⟨((s.data.dropWhile Char.isWhitespace).reverse.dropWhile Char.isWhitespace).reverse⟩

/-- `handleLogin` from `LoginPage.js` lines 10-27: when the certificate text
trims to the empty string (a JavaScript empty string is falsy), set the error
`Please enter your certificate` and return without calling `login`; otherwise
call `login` with the trimmed certificate. -/
def handleLogin (certificate : String) : HandleLoginStep :=
  if jsTrim certificate = "" then
    { errorMessage := some "Please enter your certificate", loginCalledWith := none }
  else
    { errorMessage := none, loginCalledWith := some (jsTrim certificate) }

/-- The issuance form state `newCertificate` of the `AdminPanel`. -/
structure NewCertificateForm where
  client_name : String
  client_email : String
  expires_days : Nat
deriving DecidableEq

/-- An admin management HTTP request as the `AdminPanel` constructs it:
method, URL, Authorization header value, and optional JSON body. -/
structure AdminRequest where
  method : String
  url : String
  authorization : Option String
  body : Option NewCertificateForm
deriving DecidableEq

/-- The request built by `authenticateAdmin` in the `AdminPanel`
(`LoginPage.js` lines 169-187): GET `/admin/certificates` with the admin
secret as a bearer credential. -/
def authenticateAdminRequest (api adminSecret : String) : AdminRequest :=
  { method := "GET", url := api ++ "/admin/certificates",
    authorization := some (bearerHeader adminSecret), body := none }

/-- The request built by `generateCertificate` in the `AdminPanel`
(`LoginPage.js` lines 189-213): POST `/admin/generate-certificate` with the
form as body and the admin secret as a bearer credential. -/
def generateCertificateRequest (api adminSecret : String)
    (form : NewCertificateForm) : AdminRequest :=
  { method := "POST", url := api ++ "/admin/generate-certificate",
    authorization := some (bearerHeader adminSecret), body := some form }

/-- The request built by `revokeCertificate` in the `AdminPanel`
(`LoginPage.js` lines 215-232): POST `/admin/revoke-certificate` with the
certificate id in the query string, an empty body, and the admin secret as a
bearer credential. -/
def revokeCertificateRequest (api adminSecret certificateId : String) :
    AdminRequest :=
  { method := "POST",
    url := api ++ "/admin/revoke-certificate?certificate_id=" ++ certificateId,
    authorization := some (bearerHeader adminSecret), body := none }

/-! ## Helper lemmas -/

theorem failureDetail_injective (f g : AuthFailure) :
    failureDetail f = failureDetail g → f = g := by
  intro h
  cases f <;> cases g <;> first
    | rfl
    | exact absurd h (by decide)

/-! ## Claim theorems -/

/-- Claim C9: whenever an API response arrives with HTTP status 401, the
response interceptor invokes `logout`, which sets user to none, certificate
to none, and removes the `joinery_certificate` localStorage entry, so
`isAuthenticated` returns false afterwards. -/
theorem response401_clears_session (s : AuthState) :
    responseErrorInterceptor (some 401) s = logout s ∧
    (responseErrorInterceptor (some 401) s).user = none ∧
    (responseErrorInterceptor (some 401) s).certificate = none ∧
    (responseErrorInterceptor (some 401) s).storedCertificate = none ∧
    isAuthenticated (responseErrorInterceptor (some 401) s) = false :=
  ⟨rfl, rfl, rfl, rfl, rfl⟩

/-- Claim C10: a submitted login form whose certificate text trims to the
empty string sets the error `Please enter your certificate` and returns
without invoking `login`; for input with non-empty trim, `login` is invoked
with the certificate trimmed of surrounding whitespace. -/
theorem handleLogin_empty_guard (c : String) :
    (jsTrim c = "" →
      handleLogin c = { errorMessage := some "Please enter your certificate",
                        loginCalledWith := none }) ∧
    (jsTrim c ≠ "" →
      handleLogin c = { errorMessage := none,
                        loginCalledWith := some (jsTrim c) }) := by
  constructor
  · intro h; simp [handleLogin, h]
  · intro h; simp [handleLogin, h]

/-- Witness for C10 at the concrete inputs `"   "` and `" cert-1 "`. -/
theorem handleLogin_empty_guard_witness :
    handleLogin "   " = { errorMessage := some "Please enter your certificate",
                          loginCalledWith := none } ∧
    handleLogin " cert-1 " = { errorMessage := none,
                               loginCalledWith := some "cert-1" } := by
  constructor
  · exact (handleLogin_empty_guard "   ").1 (by decide)
  · exact (handleLogin_empty_guard " cert-1 ").2 (by decide)

/-- Claim C5: every admin management call (listing, issuing, revoking)
presents the admin shared secret as a bearer credential in the Authorization
header — the same transport location used for client certificates — and the
construction of these requests uses no client certificate. -/
theorem admin_requests_use_admin_bearer (api adminSecret certificateId : String)
    (form : NewCertificateForm) :
    (authenticateAdminRequest api adminSecret).authorization
        = some (bearerHeader adminSecret) ∧
    (generateCertificateRequest api adminSecret form).authorization
        = some (bearerHeader adminSecret) ∧
    (revokeCertificateRequest api adminSecret certificateId).authorization
        = some (bearerHeader adminSecret) :=
  ⟨rfl, rfl, rfl⟩

/-- Claim C7: `login` reports success exactly when the response body contains
a user object (the identity payload carrying client_name and client_email),
and on success it stores the presented certificate string under the
`joinery_certificate` localStorage key and in the certificate state. -/
theorem login_success_iff_user (c : String) (resp : HttpOutcome) (s : AuthState) :
    ((login c resp s).1.success = true ↔ ∃ u : UserInfo, resp = .ok (some u)) ∧
    ((login c resp s).1.success = true →
      (login c resp s).2.storedCertificate = some c ∧
      (login c resp s).2.certificate = some c ∧
      (login c resp s).1.user = (login c resp s).2.user) := by
  cases resp with
  | ok user =>
    cases user with
    | some u => simp [login]
    | none => simp [login]
  | httpError st d => simp [login]

/-- Witness for C7 at a concrete success response. -/
theorem login_success_iff_user_witness :
    (login "certA"
        (HttpOutcome.ok (some { client_name := "Ada", client_email := "a@ex" }))
        { user := none, certificate := none, storedCertificate := none })
      |>.2.storedCertificate = some "certA" := by
  exact ((login_success_iff_user "certA"
    (HttpOutcome.ok (some { client_name := "Ada", client_email := "a@ex" }))
    { user := none, certificate := none, storedCertificate := none }).2
      (by decide)).1

/-- Claim C3 counterexample: the client-visible response of a failed
authentication is not identical across AuthFailure reasons — with the
per-reason human-readable detail of the rejection response (spec §6), an
expired and a revoked certificate lead `login` to report different error
messages, which `LoginPage` displays to the client. -/
theorem client_error_differs_by_reason_counterexample :
    (login "c" (.httpError 401 (some (failureDetail .Expired)))
        { user := none, certificate := none, storedCertificate := none }).1.error
      ≠
    (login "c" (.httpError 401 (some (failureDetail .Revoked)))
        { user := none, certificate := none, storedCertificate := none }).1.error := by
  decide

/-- Claim C3 (amended): on failed authentication the client is shown the
human-readable reason carried by the `detail` field of the response, so the
client-visible message varies with the AuthFailure reason; the generic
`Authentication failed` appears only when the response carries no detail. -/
theorem client_error_surfaces_detail (c : String) (status : Nat)
    (s : AuthState) (f g : AuthFailure) :
    (login c (.httpError status (some (failureDetail f))) s).1.error
        = some (failureDetail f) ∧
    (f ≠ g →
      (login c (.httpError status (some (failureDetail f))) s).1.error
        ≠ (login c (.httpError status (some (failureDetail g))) s).1.error) ∧
    (login c (.httpError status none) s).1.error = some "Authentication failed" := by
  refine ⟨rfl, ?_, rfl⟩
  intro hneq h
  simp only [login, Option.getD_some, Option.some.injEq] at h
  exact hneq (failureDetail_injective f g h)

/-- Witness for C3 (amended) at concrete distinct reasons. -/
theorem client_error_surfaces_detail_witness :
    (login "c" (.httpError 401 (some (failureDetail .Unknown)))
        { user := none, certificate := none, storedCertificate := none }).1.error
      = some (failureDetail .Unknown) ∧
    (login "c" (.httpError 401 (some (failureDetail .Unknown)))
        { user := none, certificate := none, storedCertificate := none }).1.error
      ≠ (login "c" (.httpError 401 (some (failureDetail .Malformed)))
        { user := none, certificate := none, storedCertificate := none }).1.error := by
  refine ⟨?_, ?_⟩
  · exact (client_error_surfaces_detail "c" 401
      { user := none, certificate := none, storedCertificate := none }
      .Unknown .Malformed).1
  · exact (client_error_surfaces_detail "c" 401
      { user := none, certificate := none, storedCertificate := none }
      .Unknown .Malformed).2.1 (by decide)

/-- Claim C4 counterexample: with the empty string stored under
`joinery_certificate` (a stored certificate string) and a URL containing
`/api/`, the request interceptor leaves the headers unchanged and sets no
Authorization header, because JavaScript treats the empty string as falsy. -/
theorem interceptor_empty_certificate_counterexample :
    includesSubstr "http://host/api/projects" "/api/" = true ∧
    (requestInterceptor (some "")
        { url := "http://host/api/projects", headers := [] }).headers = [] ∧
    getHeader ((requestInterceptor (some "")
        { url := "http://host/api/projects", headers := [] }).headers)
        "Authorization" = none := by
  decide

/-- Claim C4 (amended): for outbound requests whose URL contains `/api/` made
while a non-empty certificate string is stored under `joinery_certificate`,
the interceptor sets the Authorization header to `Bearer ` followed by the
stored string; requests whose URL does not contain `/api/`, or made when no
certificate is stored, or when the stored string is empty (falsy in
JavaScript), pass through with their headers unchanged. -/
theorem interceptor_sets_bearer (stored : Option String) (config : RequestConfig) :
    (∀ c : String, stored = some c → c ≠ "" →
        includesSubstr config.url "/api/" = true →
        requestInterceptor stored config =
          { config with
            headers := setHeader config.headers "Authorization" (bearerHeader c) }) ∧
    (includesSubstr config.url "/api/" = false →
        requestInterceptor stored config = config) ∧
    (stored = none ∨ stored = some "" → requestInterceptor stored config = config) := by
  refine ⟨?_, ?_, ?_⟩
  · rintro c rfl hne hinc
    simp [requestInterceptor, hne, hinc]
  · intro hninc
    cases stored with
    | none => rfl
    | some c => simp [requestInterceptor, hninc]
  · rintro (rfl | rfl) <;> simp [requestInterceptor]

/-- Witness for C4 (amended) at concrete URLs and stored certificates. -/
theorem interceptor_sets_bearer_witness :
    requestInterceptor (some "certX")
        { url := "http://host/api/projects", headers := [] }
      = { url := "http://host/api/projects",
          headers := setHeader [] "Authorization" (bearerHeader "certX") } ∧
    requestInterceptor (some "certX") { url := "http://host/other", headers := [] }
      = { url := "http://host/other", headers := [] } ∧
    requestInterceptor none { url := "http://host/api/projects", headers := [] }
      = { url := "http://host/api/projects", headers := [] } := by
  refine ⟨?_, ?_, ?_⟩
  · exact (interceptor_sets_bearer (some "certX")
      { url := "http://host/api/projects", headers := [] }).1
      "certX" rfl (by decide) (by decide)
  · exact (interceptor_sets_bearer (some "certX")
      { url := "http://host/other", headers := [] }).2.1 (by decide)
  · exact (interceptor_sets_bearer none
      { url := "http://host/api/projects", headers := [] }).2.2 (Or.inl rfl)

/-- Claim C8: the certificate listing returns the certificate records — a
permutation of the records in the store, each a CertificateRecord carrying
certificate_id, client_name, client_email, issued_at, expires_at, is_active
and signed_certificate — ordered by issuance time, most recent first. -/
theorem list_ordered_most_recent_first (store : List CertificateRecord) :
    (CertificateStore.list store).Perm store ∧
    (CertificateStore.list store).Pairwise (fun a b => b.issued_at ≤ a.issued_at) := by
  constructor
  · exact List.perm_insertionSort _ store
  · exact List.sorted_insertionSort _ store

/-- Claim C6: issuance accepts validity_days only in the range [1, 3650]: a
successful issue implies the requested expires_days value lies between 1 and
3650 inclusive, and a request with a value outside this range is not
accepted. -/
theorem issue_validity_days_range (key now validity_days : Nat)
    (store : List CertificateRecord) (freshId client_name client_email : String) :
    ((CertificateIssuer.issue key store now freshId client_name client_email
        validity_days).isSome = true →
      1 ≤ validity_days ∧ validity_days ≤ 3650) ∧
    (validity_days < 1 ∨ 3650 < validity_days →
      CertificateIssuer.issue key store now freshId client_name client_email
        validity_days = none) := by
  constructor
  · intro h
    rw [CertificateIssuer.issue] at h
    split at h
    next hcond => exact ⟨hcond.2.2.1, hcond.2.2.2⟩
    next => simp at h
  · intro hout
    rw [CertificateIssuer.issue]
    split
    next hcond =>
      exfalso
      rcases hout with h1 | h2
      · exact absurd hcond.2.2.1 (by omega)
      · exact absurd hcond.2.2.2 (by omega)
    next => rfl

/-- Witness for C6 at validity 30 days (accepted) and 9999 days (rejected). -/
theorem issue_validity_days_range_witness :
    ((1:Nat) ≤ 30 ∧ (30:Nat) ≤ 3650) ∧
    CertificateIssuer.issue 1 [] 0 "id1" "Ada" "ada@ex" 9999 = none := by
  constructor
  · exact (issue_validity_days_range 1 0 30 [] "id1" "Ada" "ada@ex").1 (by decide)
  · exact (issue_validity_days_range 1 0 9999 [] "id1" "Ada" "ada@ex").2 (by decide)

/-- Claim C2: `verify` settles a presented certificate in strict order,
failing fast at the first violated check: Malformed exactly on unparseable
input; InvalidSignature exactly when parsing succeeded but the signature does
not verify; Expired exactly when the signature verifies but the expiration
has passed; Unknown exactly when all earlier checks pass and the id is absent
from the store; Revoked exactly when all earlier checks pass and the record
is present with is_active = false — in particular revocation is consulted
only after signature verification succeeds. -/
theorem verify_failfast_order (key now : Nat) (store : List CertificateRecord)
    (p : Presented) :
    (CertificateVerifier.verify key store now p = .error .Malformed ↔
      ∃ raw, p = .malformed raw) ∧
    (CertificateVerifier.verify key store now p = .error .InvalidSignature ↔
      ∃ c s, p = .wellFormed c s ∧
        KeyAuthority.verify key (encodeClaims c) s = false) ∧
    (CertificateVerifier.verify key store now p = .error .Expired ↔
      ∃ c s, p = .wellFormed c s ∧
        KeyAuthority.verify key (encodeClaims c) s = true ∧
        c.expires_at < now) ∧
    (CertificateVerifier.verify key store now p = .error .Unknown ↔
      ∃ c s, p = .wellFormed c s ∧
        KeyAuthority.verify key (encodeClaims c) s = true ∧
        ¬ c.expires_at < now ∧
        CertificateStore.get store c.certificate_id = none) ∧
    (CertificateVerifier.verify key store now p = .error .Revoked ↔
      ∃ c s r, p = .wellFormed c s ∧
        KeyAuthority.verify key (encodeClaims c) s = true ∧
        ¬ c.expires_at < now ∧
        CertificateStore.get store c.certificate_id = some r ∧
        r.is_active = false) := by
  cases p with
  | malformed raw => simp [CertificateVerifier.verify]
  | wellFormed c s =>
    cases hsig : KeyAuthority.verify key (encodeClaims c) s with
    | false =>
      simp [CertificateVerifier.verify, hsig]
      exact ⟨c, s, ⟨rfl, rfl⟩, hsig⟩
    | true =>
      by_cases hexp : c.expires_at < now
      · simp [CertificateVerifier.verify, hsig, hexp]
        exact ⟨c, s, ⟨rfl, rfl⟩, hsig, hexp⟩
      · cases hget : CertificateStore.get store c.certificate_id with
        | none =>
          simp [CertificateVerifier.verify, hsig, hexp, hget]
          exact ⟨Nat.not_lt.1 hexp, c, s, ⟨rfl, rfl⟩, hsig, Nat.not_lt.1 hexp, hget⟩
        | some r =>
          cases hact : r.is_active with
          | false =>
            simp [CertificateVerifier.verify, hsig, hexp, hget, hact]
            exact ⟨Nat.not_lt.1 hexp, c, s, ⟨rfl, rfl⟩, hsig, Nat.not_lt.1 hexp,
              r, hget, hact⟩
          | true =>
            simp [CertificateVerifier.verify, hsig, hexp, hget, hact]
            exact Nat.not_lt.1 hexp

/-- Claim C1: after revoke succeeds on the certificate id of an issued
certificate, verify fails with Revoked, even though the signature of the
certificate still verifies against the key of the authority and its expiration has
not passed; the revoked certificate never yields an authenticated identity. -/
theorem revoked_certificate_rejected (key now now2 validity_days : Nat)
    (store store1 store2 : List CertificateRecord)
    (freshId client_name client_email : String) (tok : Presented) :
    CertificateIssuer.issue key store now freshId client_name client_email
        validity_days = some (tok, store1) →
    CertificateStore.revoke store1 freshId = some store2 →
    now2 ≤ now + validity_days →
    (∃ claims signature, tok = Presented.wellFormed claims signature ∧
        KeyAuthority.verify key (encodeClaims claims) signature = true ∧
        ¬ claims.expires_at < now2) ∧
    CertificateVerifier.verify key store2 now2 tok = .error .Revoked := by
  intro hiss hrev hle
  rw [CertificateIssuer.issue] at hiss
  split at hiss
  case isFalse => exact absurd hiss (by simp)
  case isTrue hcond =>
  simp only [Option.some.injEq, Prod.mk.injEq] at hiss
  obtain ⟨htok, hstore1⟩ := hiss
  subst htok hstore1
  rw [CertificateStore.revoke] at hrev
  rw [if_pos (by simp)] at hrev
  simp only [Option.some.injEq] at hrev
  subst hrev
  refine ⟨⟨_, _, rfl, by simp [KeyAuthority.verify], Nat.not_lt.mpr hle⟩, ?_⟩
  simp [CertificateVerifier.verify, KeyAuthority.verify, CertificateStore.get,
    List.find?, Nat.not_lt.mpr hle]

/-- Witness for C1: a concrete certificate issued for Ada, then revoked, is
rejected as Revoked at a time before its expiration. -/
theorem revoked_certificate_rejected_witness :
    CertificateVerifier.verify 1
      ((CertificateStore.revoke
        ((CertificateIssuer.issue 1 [] 0 "cid" "Ada" "a@b" 30).getD
          (Presented.malformed "", [])).2 "cid").getD [])
      5
      ((CertificateIssuer.issue 1 [] 0 "cid" "Ada" "a@b" 30).getD
        (Presented.malformed "", [])).1
      = .error .Revoked := by
  have h := revoked_certificate_rejected 1 0 5 30 []
    ((CertificateIssuer.issue 1 [] 0 "cid" "Ada" "a@b" 30).getD
      (Presented.malformed "", [])).2
    ((CertificateStore.revoke
      ((CertificateIssuer.issue 1 [] 0 "cid" "Ada" "a@b" 30).getD
        (Presented.malformed "", [])).2 "cid").getD [])
    "cid" "Ada" "a@b"
    ((CertificateIssuer.issue 1 [] 0 "cid" "Ada" "a@b" 30).getD
      (Presented.malformed "", [])).1
    (by decide) (by decide) (by decide)
  exact h.2
